import Mathlib

/-!
Shallow embedding of `src/serena/lineage/recorder.py` (the Spectrena lineage
recorder): the store locator `find_lineage_db`, the content-hash transform
used by `record_change`, and the two public operations `get_active_task` and
`record_change` over an explicit filesystem / database / failure-oracle state.
-/

set_option maxRecDepth 4000

namespace Lineage

/-- A filesystem path, as the list of components below the root.
`[]` is the root `/`. -/
abbrev Path := List String

/-- The kind of a filesystem entry: regular file or directory. -/
inductive EntryKind where
  | file
  | dir
deriving DecidableEq, Repr

/-- A filesystem state: a finite list of (path, entry-kind) pairs.
Lookups take the first entry for a path. -/
structure FS where
  entries : List (Path × EntryKind)
deriving DecidableEq, Repr

/-- The kind of the entry at `p`, if any (embeds `pathlib` stat kinds). -/
def FS.kindAt (fs : FS) (p : Path) : Option EntryKind :=
  (fs.entries.find? (fun e => e.1 = p)).map (·.2)

/-- Embeds `Path.exists()`: true iff any entry (file or directory) is at `p`. -/
def FS.exists (fs : FS) (p : Path) : Bool :=
  (fs.kindAt p).isSome

/-- Embeds `Path.is_dir()`. -/
def FS.is_dir (fs : FS) (p : Path) : Bool :=
  fs.kindAt p = some EntryKind.dir

/-- Embeds `pathlib.Path.parents` for an absolute path: the ancestors of `p`
from the immediate parent down to the root, nearest first. -/
def parentsOf (p : Path) : List Path :=
  (List.range p.length).reverse.map (fun i => p.take i)

/-- The candidate list `[current, *current.parents]` of `find_lineage_db`. -/
def candidates (cwd : Path) : List Path :=
  cwd :: parentsOf cwd

/-- The body of the `for parent in ...` loop of `find_lineage_db`:
check one candidate directory, returning the handle it yields, if any. -/
def checkCandidate (fs : FS) (parent : Path) : Option Path :=
  -- Check for SQLite: `(parent / ".spectrena" / "lineage.db").exists()`
  let sqlite_path := parent ++ [".spectrena", "lineage.db"]
  if fs.exists sqlite_path then some sqlite_path
  else
    -- Check for SurrealDB embedded: `.exists() and .is_dir()`
    let surreal_path := parent ++ [".spectrena", "lineage"]
    if fs.exists surreal_path && fs.is_dir surreal_path then some surreal_path
    else none

/-- Embeds `find_lineage_db()`: walk `[cwd, *parents]` nearest-first and
return the first candidate's handle, or `none` when the loop exhausts. -/
def find_lineage_db (fs : FS) (cwd : Path) : Option Path :=
  (candidates cwd).findSome? (checkCandidate fs)

/-- Embeds `str(db_path).endswith(".db")`: the rendered path string ends in
`.db` exactly when its last component does. -/
def pathEndsWithDb (p : Path) : Bool :=
  ".db".data.reverse.isPrefixOf (p.getLast?.getD "").data.reverse

-- Sanity examples (locator)
example : find_lineage_db ⟨[]⟩ ["a", "b"] = none := by decide
example :
    find_lineage_db ⟨[(["a", ".spectrena", "lineage.db"], EntryKind.file)]⟩ ["a", "b"] =
      some ["a", ".spectrena", "lineage.db"] := by decide
example :
    find_lineage_db ⟨[(["a", ".spectrena", "lineage"], EntryKind.dir)]⟩ ["a", "b"] =
      some ["a", ".spectrena", "lineage"] := by decide
example : pathEndsWithDb ["a", ".spectrena", "lineage.db"] = true := by decide
example : pathEndsWithDb ["a", ".spectrena", "lineage"] = false := by decide

/-! ### SHA-256 (FIPS 180-4), embedding `hashlib.sha256(...).hexdigest()`
32-bit words are `Nat` values reduced modulo `2 ^ 32`. -/

/-- The modulus `2 ^ 32` of 32-bit words. -/
def M32 : Nat := 4294967296

/-- Addition of 32-bit words. -/
def add32 (a b : Nat) : Nat := (a + b) % M32

/-- Right rotation of a 32-bit word by `n` (for `0 < n < 32` and `x < M32`). -/
def rotr32 (n x : Nat) : Nat := (x >>> n) ||| ((x <<< (32 - n)) % M32)

/-- Bitwise complement of a 32-bit word. -/
def not32 (x : Nat) : Nat := x ^^^ (M32 - 1)

/-- SHA-256 `Ch(e, f, g)`. -/
def chFn (e f g : Nat) : Nat := (e &&& f) ^^^ (not32 e &&& g)

/-- SHA-256 `Maj(a, b, c)`. -/
def majFn (a b c : Nat) : Nat := (a &&& b) ^^^ (a &&& c) ^^^ (b &&& c)

/-- SHA-256 big sigma 0. -/
def bigSigma0 (x : Nat) : Nat := rotr32 2 x ^^^ rotr32 13 x ^^^ rotr32 22 x

/-- SHA-256 big sigma 1. -/
def bigSigma1 (x : Nat) : Nat := rotr32 6 x ^^^ rotr32 11 x ^^^ rotr32 25 x

/-- SHA-256 small sigma 0. -/
def smallSigma0 (x : Nat) : Nat := rotr32 7 x ^^^ rotr32 18 x ^^^ (x >>> 3)

/-- SHA-256 small sigma 1. -/
def smallSigma1 (x : Nat) : Nat := rotr32 17 x ^^^ rotr32 19 x ^^^ (x >>> 10)

/-- The 64 SHA-256 round constants. -/
def roundK : List Nat :=
  [1116352408, 1899447441, 3049323471, 3921009573, 961987163, 1508970993,
   2453635748, 2870763221, 3624381080, 310598401, 607225278, 1426881987,
   1925078388, 2162078206, 2614888103, 3248222580, 3835390401, 4022224774,
   264347078, 604807628, 770255983, 1249150122, 1555081692, 1996064986,
   2554220882, 2821834349, 2952996808, 3210313671, 3336571891, 3584528711,
   113926993, 338241895, 666307205, 773529912, 1294757372, 1396182291,
   1695183700, 1986661051, 2177026350, 2456956037, 2730485921, 2820302411,
   3259730800, 3345764771, 3516065817, 3600352804, 4094571909, 275423344,
   430227734, 506948616, 659060556, 883997877, 958139571, 1322822218,
   1537002063, 1747873779, 1955562222, 2024104815, 2227730452, 2361852424,
   2428436474, 2756734187, 3204031479, 3329325298]

/-- The SHA-256 initial hash value. -/
def initH : List Nat :=
  [1779033703, 3144134277, 1013904242, 2773480762,
   1359893119, 2600822924, 528734635, 1541459225]

/-- UTF-8 encoding of one character, embedding Python's `str.encode()`. -/
def utf8EncodeChar (c : Char) : List Nat :=
  let n := c.toNat
  if n < 0x80 then [n]
  else if n < 0x800 then
    [0xC0 ||| (n >>> 6), 0x80 ||| (n &&& 0x3F)]
  else if n < 0x10000 then
    [0xE0 ||| (n >>> 12), 0x80 ||| ((n >>> 6) &&& 0x3F), 0x80 ||| (n &&& 0x3F)]
  else
    [0xF0 ||| (n >>> 18), 0x80 ||| ((n >>> 12) &&& 0x3F),
     0x80 ||| ((n >>> 6) &&& 0x3F), 0x80 ||| (n &&& 0x3F)]

/-- The UTF-8 byte sequence of a string. -/
def strBytes (s : String) : List Nat :=
  (s.data.map utf8EncodeChar).flatten

/-- SHA-256 padding: append `0x80`, zero bytes to 56 mod 64, then the
bit length as 8 big-endian bytes. -/
def padMessage (msg : List Nat) : List Nat :=
  let L := msg.length
  let k := (120 - (L + 1) % 64) % 64
  let lenBytes := (List.range 8).map (fun i => ((8 * L) >>> (8 * (7 - i))) % 256)
  msg ++ [0x80] ++ List.replicate k 0 ++ lenBytes

/-- Group bytes into 32-bit big-endian words. -/
def bytesToWords : List Nat → List Nat
  | a :: b :: c :: d :: rest => (((a * 256 + b) * 256 + c) * 256 + d) :: bytesToWords rest
  | _ => []

/-- One step of the message-schedule extension: append word `W[i]` computed
from `W[i-2], W[i-7], W[i-15], W[i-16]`. -/
def scheduleStep (w : List Nat) : List Nat :=
  let i := w.length
  let s0 := smallSigma0 (w.getD (i - 15) 0)
  let s1 := smallSigma1 (w.getD (i - 2) 0)
  w ++ [(w.getD (i - 16) 0 + s0 + w.getD (i - 7) 0 + s1) % M32]

/-- Extend a 16-word block to the 64-word message schedule. -/
def messageSchedule (block : List Nat) : List Nat :=
  Nat.repeat scheduleStep 48 block

/-- The eight working registers of the compression function. -/
structure Regs where
  ra : Nat
  rb : Nat
  rc : Nat
  rd : Nat
  re : Nat
  rf : Nat
  rg : Nat
  rh : Nat
deriving DecidableEq, Repr

/-- One compression round, consuming one `(K[t], W[t])` pair. -/
def compressRound (st : Regs) (kw : Nat × Nat) : Regs :=
  let t1 := (st.rh + bigSigma1 st.re + chFn st.re st.rf st.rg + kw.1 + kw.2) % M32
  let t2 := (bigSigma0 st.ra + majFn st.ra st.rb st.rc) % M32
  { ra := (t1 + t2) % M32, rb := st.ra, rc := st.rb, rd := st.rc,
    re := (st.rd + t1) % M32, rf := st.re, rg := st.rf, rh := st.rg }

/-- Compress one 16-word block into the running hash value. -/
def compressBlock (hs : List Nat) (block : List Nat) : List Nat :=
  let w := messageSchedule block
  let st0 : Regs :=
    { ra := hs.getD 0 0, rb := hs.getD 1 0, rc := hs.getD 2 0, rd := hs.getD 3 0,
      re := hs.getD 4 0, rf := hs.getD 5 0, rg := hs.getD 6 0, rh := hs.getD 7 0 }
  let st := (roundK.zip w).foldl compressRound st0
  List.zipWith add32 hs [st.ra, st.rb, st.rc, st.rd, st.re, st.rf, st.rg, st.rh]

/-- Fold the compression function over the 16-word blocks of `ws`; the fuel
argument bounds the number of blocks (each step consumes 16 words, so fuel
equal to `ws.length` always suffices). -/
def processBlocks : Nat → List Nat → List Nat → List Nat
  | _, hs, [] => hs
  | 0, hs, _ => hs
  | fuel + 1, hs, ws => processBlocks fuel (compressBlock hs (ws.take 16)) (ws.drop 16)

/-- The eight 32-bit words of the SHA-256 digest of a byte sequence. -/
def sha256Words (msg : List Nat) : List Nat :=
  let ws := bytesToWords (padMessage msg)
  processBlocks ws.length initH ws

/-- A lowercase hexadecimal digit. -/
def hexDigit (n : Nat) : Char :=
  if n < 10 then Char.ofNat (48 + n) else Char.ofNat (87 + n)

/-- The 8 hex characters of one 32-bit word, most significant first. -/
def wordToHex (w : Nat) : List Char :=
  (List.range 8).map (fun i => hexDigit ((w >>> (4 * (7 - i))) % 16))

/-- Embeds `hashlib.sha256(s.encode()).hexdigest()`: the 64-character
lowercase hex digest of the UTF-8 encoding of `s`. -/
def sha256Hex (s : String) : String :=
  ⟨((sha256Words (strBytes s)).map wordToHex).flatten⟩

-- FIPS 180-4 / hashlib reference vectors
example : sha256Hex "abc" =
    "ba7816bf8f01cfea414140de5dae2223b00361a396177a9cb410ff61f20015ad" := by decide
example : sha256Hex "hello" =
    "2cf24dba5fb0a30e26e83b2ac5b9e29e1b161e5c1fa7425e73043362938b9824" := by decide
example : sha256Hex "" =
    "e3b0c44298fc1c149afbf4c8996fb92427ae41e4649b934ca495991b7852b855" := by decide

/-- Embeds the conditional-expression hash of `record_change`:
`hashlib.sha256(content.encode()).hexdigest()[:16] if content else None`.
Python truthiness makes both `None` and the empty string take the `else`
branch. -/
def contentHash (content : Option String) : Option String :=
  match content with
  | some s => if s = "" then none else some ((sha256Hex s).take 16)
  | none => none

example : contentHash (some "hello") = some "2cf24dba5fb0a30e" := by decide
example : contentHash (some "") = none := by decide
example : contentHash none = none := by decide

/-! ### The SQLite store

The relational schema the recorder queries: `phase_state(id, current_task_id)`,
`tasks(task_id, title, plan_id)`, `plans(plan_id, spec_id)` and the append-only
`code_changes` table. SQL NULL is `Option.none`. -/

/-- One row of the `code_changes` table. -/
structure Row where
  task_id : String
  file_path : String
  symbol_fqn : Option String
  change_type : String
  tool_used : String
  old_content_hash : Option String
  new_content_hash : Option String
  timestamp : String
deriving DecidableEq, Repr

/-- One row of `phase_state`. -/
structure PhaseState where
  id : Nat
  current_task_id : Option String
deriving DecidableEq, Repr

/-- One row of `tasks`. -/
structure Task where
  task_id : String
  title : Option String
  plan_id : Option String
deriving DecidableEq, Repr

/-- One row of `plans`. -/
structure Plan where
  plan_id : String
  spec_id : Option String
deriving DecidableEq, Repr

/-- The contents of one SQLite lineage database. -/
structure Db where
  phase_state : List PhaseState
  tasks : List Task
  plans : List Plan
  code_changes : List Row
deriving DecidableEq, Repr

/-- The row dictionary returned by `get_active_task`:
`{current_task_id, title, plan_id, spec_id}`. -/
structure ActiveTask where
  current_task_id : String
  title : Option String
  plan_id : Option String
  spec_id : Option String
deriving DecidableEq, Repr

/-- Failure oracle for the storage layer: which step raises `sqlite3.Error`.
`failQuery` covers the read path of `get_active_task` (connect or select);
the other three cover `record_change`'s connect, insert and commit. -/
structure SqliteError where
  failQuery : Bool
  failOpen : Bool
  failInsert : Bool
  failCommit : Bool
deriving DecidableEq, Repr

/-- The world one call runs in: the filesystem, the working directory, the
database contents found at each path, the failure oracle, and the value
`datetime.now(UTC).isoformat()` produces during the call. -/
structure World where
  fs : FS
  cwd : Path
  dbs : Path → Db
  err : SqliteError
  now : String

/-- An open SQLite connection: the durable rows of `code_changes` plus the
rows inserted but not yet committed. Closing a connection without a commit
discards the pending rows (SQLite rolls the open transaction back). -/
structure Conn where
  durable : List Row
  pending : List Row
deriving DecidableEq, Repr

/-- Embeds `conn.execute("INSERT INTO code_changes ...")`: on success the row
joins the open transaction and `cursor.lastrowid` is the rowid the backend
assigns to it (its 1-based position in the table). -/
def Conn.execInsert (c : Conn) (err : Bool) (r : Row) : Except Unit (Conn × Nat) :=
  if err then Except.error ()
  else
    let c' : Conn := { c with pending := c.pending ++ [r] }
    Except.ok (c', c'.durable.length + c'.pending.length)

/-- Embeds `conn.commit()`: on success the pending rows become durable. -/
def Conn.commit (c : Conn) (err : Bool) : Except Unit Conn :=
  if err then Except.error ()
  else Except.ok { durable := c.durable ++ c.pending, pending := [] }

/-! ### The public operations -/

/-- The first row of the active-task query
`SELECT ps.current_task_id, t.title, t.plan_id, p.spec_id FROM phase_state ps
LEFT JOIN tasks t ON ps.current_task_id = t.task_id
LEFT JOIN plans p ON t.plan_id = p.plan_id
WHERE ps.id = 1 AND ps.current_task_id IS NOT NULL` (`fetchone`). -/
def activeTaskQuery (db : Db) : Option ActiveTask :=
  (db.phase_state.find? (fun ps => ps.id = 1 && ps.current_task_id.isSome)).bind
    (fun ps => ps.current_task_id.map (fun tid =>
      let t := db.tasks.find? (fun t => t.task_id = tid)
      let pid := t.bind Task.plan_id
      let pl := pid.bind (fun pid => db.plans.find? (fun pl => pl.plan_id = pid))
      { current_task_id := tid, title := t.bind Task.title,
        plan_id := pid, spec_id := pl.bind Plan.spec_id }))

/-- Embeds `get_active_task()`: locate the store; on a `.db` handle run the
active-task query (any `sqlite3.Error` is caught and maps to `None`); on a
SurrealDB handle degrade to `None` (not yet implemented). -/
def get_active_task (w : World) : Option ActiveTask :=
  match find_lineage_db w.fs w.cwd with
  | none => none
  | some db_path =>
    if pathEndsWithDb db_path then
      if w.err.failQuery then none
      else activeTaskQuery (w.dbs db_path)
    else none

/-- Embeds `record_change(...)`: locate the store; hash the contents; stamp
the timestamp; on a `.db` handle open a connection, insert one row into
`code_changes`, commit, and return `cursor.lastrowid`; any `sqlite3.Error`
is caught and the call returns `None` with the store unchanged (the
connection is closed in a `finally`, discarding any uncommitted insert);
on a SurrealDB handle degrade to `None`. Returns the result together with
the database contents after the call. -/
def record_change (w : World) (task_id file_path change_type tool_used : String)
    (symbol_fqn old_content new_content : Option String) :
    Option Nat × (Path → Db) :=
  match find_lineage_db w.fs w.cwd with
  | none => (none, w.dbs)
  | some db_path =>
    let old_hash := contentHash old_content
    let new_hash := contentHash new_content
    let timestamp := w.now
    if pathEndsWithDb db_path then
      if w.err.failOpen then (none, w.dbs)
      else
        let conn : Conn := { durable := (w.dbs db_path).code_changes, pending := [] }
        let row : Row :=
          { task_id := task_id, file_path := file_path, symbol_fqn := symbol_fqn,
            change_type := change_type, tool_used := tool_used,
            old_content_hash := old_hash, new_content_hash := new_hash,
            timestamp := timestamp }
        match conn.execInsert w.err.failInsert row with
        | Except.error _ => (none, w.dbs)
        | Except.ok (conn, rowid) =>
          match conn.commit w.err.failCommit with
          | Except.error _ => (none, w.dbs)
          | Except.ok conn =>
            (some rowid,
             fun p => if p = db_path then { w.dbs p with code_changes := conn.durable }
                      else w.dbs p)
    else (none, w.dbs)

/-! ### Spec-side characterization of the locator -/

/-- The relational marker as the code tests it: some entry (of any kind)
exists at `<d>/.spectrena/lineage.db`. -/
def relMarkerAt (fs : FS) (d : Path) : Bool :=
  fs.exists (d ++ [".spectrena", "lineage.db"])

/-- The graph-embedded marker: `<d>/.spectrena/lineage` exists and is a
directory. -/
def graphMarkerAt (fs : FS) (d : Path) : Bool :=
  fs.exists (d ++ [".spectrena", "lineage"]) && fs.is_dir (d ++ [".spectrena", "lineage"])

/-- A candidate directory contains a marker. -/
def hasMarkerAt (fs : FS) (d : Path) : Bool :=
  relMarkerAt fs d || graphMarkerAt fs d

/-- The handle a marked candidate directory yields, preferring the
relational marker over the graph marker. -/
def handleAt (fs : FS) (d : Path) : Path :=
  if relMarkerAt fs d then d ++ [".spectrena", "lineage.db"]
  else d ++ [".spectrena", "lineage"]

theorem checkCandidate_eq (fs : FS) (d : Path) :
    checkCandidate fs d =
      if hasMarkerAt fs d then some (handleAt fs d) else none := by
  unfold checkCandidate hasMarkerAt handleAt relMarkerAt graphMarkerAt
  by_cases h1 : fs.exists (d ++ [".spectrena", "lineage.db"]) <;>
    by_cases h2 :
      fs.exists (d ++ [".spectrena", "lineage"]) && fs.is_dir (d ++ [".spectrena", "lineage"]) <;>
    simp [h1, h2]

theorem findSome?_eq_none_iff' {α β : Type} (f : α → Option β) (l : List α) :
    l.findSome? f = none ↔ ∀ a ∈ l, f a = none := by
  induction l with
  | nil => simp [List.findSome?]
  | cons a l ih =>
    cases h : f a with
    | none => simp [List.findSome?, h, ih]
    | some b => simp [List.findSome?, h]

theorem findSome?_eq_some_split {α β : Type} (f : α → Option β) (l : List α) (b : β)
    (hfind : l.findSome? f = some b) :
    ∃ l₁ a l₂, l = l₁ ++ a :: l₂ ∧ (∀ x ∈ l₁, f x = none) ∧ f a = some b := by
  induction l with
  | nil => simp [List.findSome?] at hfind
  | cons a l ih =>
    cases h : f a with
    | some c =>
      refine ⟨[], a, l, rfl, by simp, ?_⟩
      rw [h]
      simpa [List.findSome?, h] using hfind
    | none =>
      rw [List.findSome?] at hfind
      rw [h] at hfind
      obtain ⟨l₁, x, l₂, heq, hnone, hx⟩ := ih hfind
      exact ⟨a :: l₁, x, l₂, by simp [heq], by
        intro y hy
        rcases List.mem_cons.mp hy with hy | hy
        · exact hy ▸ h
        · exact hnone y hy, hx⟩

theorem checkCandidate_eq_none_iff (fs : FS) (d : Path) :
    checkCandidate fs d = none ↔ hasMarkerAt fs d = false := by
  rw [checkCandidate_eq]
  by_cases h : hasMarkerAt fs d <;> simp [h]

theorem pathEndsWithDb_append (d : Path) (s : String) :
    pathEndsWithDb (d ++ [".spectrena", s]) = pathEndsWithDb [".spectrena", s] := by
  unfold pathEndsWithDb
  rw [List.getLast?_append_cons]

/-! ### Claims about the store locator -/

/-- The filesystem of the C1 counterexample: the only entry anywhere is a
directory (not a regular file) named `.spectrena/lineage.db` under the root,
and no `.spectrena/lineage` directory exists. -/
def fsC1 : FS := ⟨[([".spectrena", "lineage.db"], EntryKind.dir)]⟩

/-- C1 counterexample: from the root, no candidate directory contains either
marker as the claim defines them (a `lineage.db` regular file or a `lineage`
directory) — the sole entry is a directory named `lineage.db` — yet
`find_lineage_db` does not return `none`: it returns that directory, because
the code tests `exists()` rather than `is_file()`. -/
theorem find_lineage_db_claim_false :
    (∀ d ∈ candidates [],
        fsC1.kindAt (d ++ [".spectrena", "lineage.db"]) ≠ some EntryKind.file
          ∧ graphMarkerAt fsC1 d = false)
      ∧ find_lineage_db fsC1 [] = some [".spectrena", "lineage.db"] := by
  decide

/-- Characterization of the locator scan, shared by several results:
`none` exactly when no candidate is marked; a returned handle is the
preferred handle of the nearest marked candidate. -/
theorem find_lineage_db_char (fs : FS) (cwd : Path) :
    (find_lineage_db fs cwd = none ↔ ∀ d ∈ candidates cwd, hasMarkerAt fs d = false)
      ∧ (∀ p, find_lineage_db fs cwd = some p →
          ∃ pre d post, candidates cwd = pre ++ d :: post
            ∧ (∀ d' ∈ pre, hasMarkerAt fs d' = false)
            ∧ hasMarkerAt fs d = true
            ∧ p = handleAt fs d) := by
  constructor
  · rw [find_lineage_db, findSome?_eq_none_iff']
    constructor
    · intro h d hd
      exact (checkCandidate_eq_none_iff fs d).mp (h d hd)
    · intro h d hd
      exact (checkCandidate_eq_none_iff fs d).mpr (h d hd)
  · intro p hp
    obtain ⟨pre, d, post, heq, hnone, hd⟩ := findSome?_eq_some_split _ _ _ hp
    rw [checkCandidate_eq] at hd
    by_cases hm : hasMarkerAt fs d
    · rw [if_pos hm] at hd
      exact ⟨pre, d, post, heq,
        fun d' h' => (checkCandidate_eq_none_iff fs d').mp (hnone d' h'),
        hm, (Option.some.injEq _ _).mp hd.symm⟩
    · rw [if_neg hm] at hd
      exact absurd hd (by simp)

/-- C1 (amended): for every filesystem and working directory, the locator
returns `none` exactly when no candidate in the chain `[cwd, ..., root]`
contains a marker — where the relational marker is an entry of any kind at
`<candidate>/.spectrena/lineage.db` and the graph marker is a directory at
`<candidate>/.spectrena/lineage` — and when it returns a handle, that handle
belongs to the nearest marked candidate (every strictly nearer candidate is
unmarked), preferring the relational marker when both markers are present in
the same candidate. -/
theorem find_lineage_db_correct (fs : FS) (cwd : Path) :
    (find_lineage_db fs cwd = none ↔ ∀ d ∈ candidates cwd, hasMarkerAt fs d = false)
      ∧ (∀ p, find_lineage_db fs cwd = some p →
          ∃ pre d post, candidates cwd = pre ++ d :: post
            ∧ (∀ d' ∈ pre, hasMarkerAt fs d' = false)
            ∧ hasMarkerAt fs d = true
            ∧ p = handleAt fs d) :=
  find_lineage_db_char fs cwd

/-- The filesystem of the C1 witness: both markers are present under
`proj` (the relational one as a regular file), nothing is under `proj/sub`. -/
def fsC1w : FS :=
  ⟨[(["proj", ".spectrena", "lineage.db"], EntryKind.file),
    (["proj", ".spectrena", "lineage"], EntryKind.dir)]⟩

/-- Witness for the amended C1 theorem at a concrete world: starting from
`proj/sub`, the nearest marked candidate is `proj`, whose relational handle
is preferred over its graph marker. -/
theorem find_lineage_db_correct_witness :
    ∃ pre d post, candidates ["proj", "sub"] = pre ++ d :: post
      ∧ (∀ d' ∈ pre, hasMarkerAt fsC1w d' = false)
      ∧ hasMarkerAt fsC1w d = true
      ∧ ["proj", ".spectrena", "lineage.db"] = handleAt fsC1w d :=
  (find_lineage_db_correct fsC1w ["proj", "sub"]).2
    ["proj", ".spectrena", "lineage.db"] (by decide)

/-- The filesystem of the C7 counterexample: a directory (not a regular
file) sits at `proj/.spectrena/lineage.db`. -/
def fsC7 : FS := ⟨[(["proj", ".spectrena", "lineage.db"], EntryKind.dir)]⟩

/-- C7 counterexample: the entry at `proj/.spectrena/lineage.db` is a
directory, not a regular file, yet the locator returns it — and, its path
ending in `.db`, both operations would treat it as the relational store.
The code tests `exists()`, never `is_file()`. -/
theorem find_lineage_db_file_check_false :
    fsC7.kindAt ["proj", ".spectrena", "lineage.db"] = some EntryKind.dir
      ∧ find_lineage_db fsC7 ["proj"] = some ["proj", ".spectrena", "lineage.db"]
      ∧ pathEndsWithDb ["proj", ".spectrena", "lineage.db"] = true := by
  decide

/-- C7 (amended): the locator's relational test is pure existence: whenever
an entry of ANY kind sits at `<cwd>/.spectrena/lineage.db`, the locator
returns exactly that path; and conversely every returned handle whose path
ends in `.db` is the `<candidate>/.spectrena/lineage.db` of some candidate
directory at which an entry (of unconstrained kind) exists. -/
theorem find_lineage_db_relational_exists (fs : FS) (cwd : Path) :
    (∀ k : EntryKind, fs.kindAt (cwd ++ [".spectrena", "lineage.db"]) = some k →
        find_lineage_db fs cwd = some (cwd ++ [".spectrena", "lineage.db"]))
      ∧ (∀ p, find_lineage_db fs cwd = some p → pathEndsWithDb p = true →
          ∃ d, p = d ++ [".spectrena", "lineage.db"] ∧ fs.exists p = true) := by
  constructor
  · intro k hk
    have hex : fs.exists (cwd ++ [".spectrena", "lineage.db"]) = true := by
      rw [FS.exists, hk]; rfl
    have h1 : checkCandidate fs cwd = some (cwd ++ [".spectrena", "lineage.db"]) := by
      rw [checkCandidate_eq]
      have hrel : relMarkerAt fs cwd = true := hex
      simp [hasMarkerAt, hrel, handleAt]
    rw [find_lineage_db, candidates]
    simp [List.findSome?, h1]
  · intro p hp hdb
    obtain ⟨-, d, -, -, -, hm, hpd⟩ := (find_lineage_db_char fs cwd).2 p hp
    rw [handleAt] at hpd
    by_cases hrel : relMarkerAt fs d
    · rw [if_pos hrel] at hpd
      exact ⟨d, hpd, hpd ▸ hrel⟩
    · rw [if_neg hrel] at hpd
      exfalso
      rw [hpd, pathEndsWithDb_append] at hdb
      exact absurd hdb (by decide)

/-- The filesystem of the C7 witness: `p/.spectrena/lineage.db` exists as a
regular file. -/
def fsC7w : FS := ⟨[(["p", ".spectrena", "lineage.db"], EntryKind.file)]⟩

/-- Witness for the amended C7 theorem: a regular file at
`p/.spectrena/lineage.db` is returned as the handle. -/
theorem find_lineage_db_relational_exists_witness :
    find_lineage_db fsC7w ["p"] = some (["p"] ++ [".spectrena", "lineage.db"]) :=
  (find_lineage_db_relational_exists fsC7w ["p"]).1 EntryKind.file (by decide)

/-! ### Claims about `record_change` -/

/-- The successful-path behaviour of `record_change`, shared by several
results: against a resolved, failure-free relational store the call appends
one fully specified row and returns its rowid. -/
theorem record_change_success (w : World) (p : Path)
    (h1 : find_lineage_db w.fs w.cwd = some p)
    (h2 : pathEndsWithDb p = true)
    (h3 : w.err.failOpen = false)
    (h4 : w.err.failInsert = false)
    (h5 : w.err.failCommit = false)
    (task_id file_path change_type tool_used : String)
    (symbol_fqn old_content new_content : Option String) :
    ((record_change w task_id file_path change_type tool_used
          symbol_fqn old_content new_content).2 p).code_changes =
        (w.dbs p).code_changes ++
          [{ task_id := task_id, file_path := file_path, symbol_fqn := symbol_fqn,
             change_type := change_type, tool_used := tool_used,
             old_content_hash := contentHash old_content,
             new_content_hash := contentHash new_content,
             timestamp := w.now }]
      ∧ (record_change w task_id file_path change_type tool_used
          symbol_fqn old_content new_content).1 =
          some ((w.dbs p).code_changes.length + 1)
      ∧ (∀ q, q ≠ p →
          (record_change w task_id file_path change_type tool_used
            symbol_fqn old_content new_content).2 q = w.dbs q) := by
  refine ⟨?_, ?_, ?_⟩ <;>
    simp [record_change, h1, h2, h3, h4, h5, Conn.execInsert, Conn.commit]
  intro q hq
  simp [hq]

/-- C2: against a resolved relational store whose storage layer does not
fail (connect, insert and commit all succeed — in particular the schema is
valid), `record_change` appends exactly one row to `code_changes`, built
from the call's arguments, the content hashes and the call-time timestamp;
the commit makes it durable, no other store is touched, and the
backend-assigned identifier of the inserted row is returned, non-absent. -/
theorem record_change_appends_one_row (w : World) (p : Path)
    (h1 : find_lineage_db w.fs w.cwd = some p)
    (h2 : pathEndsWithDb p = true)
    (h3 : w.err.failOpen = false)
    (h4 : w.err.failInsert = false)
    (h5 : w.err.failCommit = false)
    (task_id file_path change_type tool_used : String)
    (symbol_fqn old_content new_content : Option String) :
    ((record_change w task_id file_path change_type tool_used
          symbol_fqn old_content new_content).2 p).code_changes =
        (w.dbs p).code_changes ++
          [{ task_id := task_id, file_path := file_path, symbol_fqn := symbol_fqn,
             change_type := change_type, tool_used := tool_used,
             old_content_hash := contentHash old_content,
             new_content_hash := contentHash new_content,
             timestamp := w.now }]
      ∧ (record_change w task_id file_path change_type tool_used
          symbol_fqn old_content new_content).1 =
          some ((w.dbs p).code_changes.length + 1)
      ∧ (∀ q, q ≠ p →
          (record_change w task_id file_path change_type tool_used
            symbol_fqn old_content new_content).2 q = w.dbs q) :=
  record_change_success w p h1 h2 h3 h4 h5
    task_id file_path change_type tool_used symbol_fqn old_content new_content

/-- A world whose store is an empty relational database at
`w2/.spectrena/lineage.db`, with a failure-free storage layer. -/
def wC2 : World :=
  { fs := ⟨[(["w2", ".spectrena", "lineage.db"], EntryKind.file)]⟩
    cwd := ["w2"]
    dbs := fun _ => { phase_state := [], tasks := [], plans := [], code_changes := [] }
    err := { failQuery := false, failOpen := false, failInsert := false, failCommit := false }
    now := "2026-01-01T00:00:00+00:00" }

/-- Witness for C2 at a concrete call: one row lands in `code_changes` of
the empty store and rowid 1 comes back. -/
theorem record_change_appends_one_row_witness :
    ((record_change wC2 "CORE-001-T01" "src/auth.py" "modify" "replace_symbol"
          (some "src/auth.py:User") (some "old code") none).2
        ["w2", ".spectrena", "lineage.db"]).code_changes =
        (wC2.dbs ["w2", ".spectrena", "lineage.db"]).code_changes ++
          [{ task_id := "CORE-001-T01", file_path := "src/auth.py",
             symbol_fqn := some "src/auth.py:User",
             change_type := "modify", tool_used := "replace_symbol",
             old_content_hash := contentHash (some "old code"),
             new_content_hash := contentHash none,
             timestamp := wC2.now }]
      ∧ (record_change wC2 "CORE-001-T01" "src/auth.py" "modify" "replace_symbol"
          (some "src/auth.py:User") (some "old code") none).1 =
          some ((wC2.dbs ["w2", ".spectrena", "lineage.db"]).code_changes.length + 1)
      ∧ (∀ q, q ≠ ["w2", ".spectrena", "lineage.db"] →
          (record_change wC2 "CORE-001-T01" "src/auth.py" "modify" "replace_symbol"
            (some "src/auth.py:User") (some "old code") none).2 q =
            wC2.dbs q) :=
  record_change_appends_one_row wC2 ["w2", ".spectrena", "lineage.db"]
    (by decide) (by decide) rfl rfl rfl
    "CORE-001-T01" "src/auth.py" "modify" "replace_symbol"
    (some "src/auth.py:User") (some "old code") none

/-- C5: against a resolved relational store, a storage failure at open,
insert or commit is caught (`sqlite3.Error` never propagates), the call
returns `None`, and every store's contents are exactly as before the call:
an uncommitted insert is rolled back when the connection closes. -/
theorem record_change_failure_leaves_store_unchanged (w : World) (p : Path)
    (h1 : find_lineage_db w.fs w.cwd = some p)
    (h2 : pathEndsWithDb p = true)
    (h3 : w.err.failOpen = true ∨ w.err.failInsert = true ∨ w.err.failCommit = true)
    (task_id file_path change_type tool_used : String)
    (symbol_fqn old_content new_content : Option String) :
    record_change w task_id file_path change_type tool_used
        symbol_fqn old_content new_content = (none, w.dbs) := by
  cases hO : w.err.failOpen <;> cases hI : w.err.failInsert <;>
    cases hC : w.err.failCommit <;>
    simp [hO, hI, hC] at h3 <;>
    simp [record_change, h1, h2, hO, hI, hC, Conn.execInsert, Conn.commit]

/-- A world identical to a healthy relational setup except that the insert
statement raises `sqlite3.Error`. -/
def wC5 : World :=
  { fs := ⟨[(["w5", ".spectrena", "lineage.db"], EntryKind.file)]⟩
    cwd := ["w5"]
    dbs := fun _ => { phase_state := [], tasks := [], plans := [], code_changes := [] }
    err := { failQuery := false, failOpen := false, failInsert := true, failCommit := false }
    now := "2026-01-01T00:00:00+00:00" }

/-- Witness for C5: a failing insert yields `None` and an untouched store. -/
theorem record_change_failure_leaves_store_unchanged_witness :
    record_change wC5 "T-1" "a.py" "create" "insert_after_symbol" none none (some "x") =
      (none, wC5.dbs) :=
  record_change_failure_leaves_store_unchanged wC5 ["w5", ".spectrena", "lineage.db"]
    (by decide) (by decide) (Or.inr (Or.inl rfl))
    "T-1" "a.py" "create" "insert_after_symbol" none none (some "x")

/-- C6: when the locator resolves no store, `record_change` returns `None`
and no database anywhere changes — no connection is even modelled as
opened, whatever the failure oracle says. -/
theorem record_change_no_store_is_noop (w : World)
    (h : find_lineage_db w.fs w.cwd = none)
    (task_id file_path change_type tool_used : String)
    (symbol_fqn old_content new_content : Option String) :
    record_change w task_id file_path change_type tool_used
        symbol_fqn old_content new_content = (none, w.dbs) := by
  simp [record_change, h]

/-- A world whose filesystem holds no marker at all. -/
def wC6 : World :=
  { fs := ⟨[(["w6", "README.md"], EntryKind.file)]⟩
    cwd := ["w6", "deep", "nested"]
    dbs := fun _ => { phase_state := [], tasks := [], plans := [], code_changes := [] }
    err := { failQuery := false, failOpen := false, failInsert := false, failCommit := false }
    now := "2026-01-01T00:00:00+00:00" }

/-- Witness for C6: with no marker anywhere up to the root, recording is a
silent no-op. -/
theorem record_change_no_store_is_noop_witness :
    record_change wC6 "T-2" "b.py" "delete" "delete_symbol" none (some "gone") none =
      (none, wC6.dbs) :=
  record_change_no_store_is_noop wC6 (by decide)
    "T-2" "b.py" "delete" "delete_symbol" none (some "gone") none

/-- C8: when the locator resolves a handle that is not the relational
`.db` file — the SurrealDB `lineage` directory marker — both operations
return `None` for every database state and every failure oracle: no
storage access happens and nothing can raise. -/
theorem graph_store_operations_unavailable (w : World) (p : Path)
    (h1 : find_lineage_db w.fs w.cwd = some p)
    (h2 : pathEndsWithDb p = false)
    (task_id file_path change_type tool_used : String)
    (symbol_fqn old_content new_content : Option String) :
    get_active_task w = none
      ∧ record_change w task_id file_path change_type tool_used
          symbol_fqn old_content new_content = (none, w.dbs) := by
  constructor <;> simp [get_active_task, record_change, h1, h2]

/-- A world whose only marker is the SurrealDB directory
`w8/.spectrena/lineage`, with an oracle that would fail everything — a
storage layer the graph stub never touches. -/
def wC8 : World :=
  { fs := ⟨[(["w8", ".spectrena", "lineage"], EntryKind.dir)]⟩
    cwd := ["w8", "sub"]
    dbs := fun _ => { phase_state := [], tasks := [], plans := [], code_changes := [] }
    err := { failQuery := true, failOpen := true, failInsert := true, failCommit := true }
    now := "2026-01-01T00:00:00+00:00" }

/-- Witness for C8: a directory marker with no relational file yields
`None` from both operations, with the stores untouched. -/
theorem graph_store_operations_unavailable_witness :
    get_active_task wC8 = none
      ∧ record_change wC8 "T-3" "c.py" "rename" "rename_symbol" none none none =
          (none, wC8.dbs) :=
  graph_store_operations_unavailable wC8 ["w8", ".spectrena", "lineage"]
    (by decide) (by decide) "T-3" "c.py" "rename" "rename_symbol" none none none

/-- C9: `record_change` treats an empty-string content exactly like an
absent one — Python truthiness sends `""` to the `else None` branch of the
hash expression — so the whole call is indistinguishable from the call with
that argument omitted, in every world. -/
theorem record_change_empty_content_like_absent (w : World)
    (task_id file_path change_type tool_used : String)
    (symbol_fqn other : Option String) :
    record_change w task_id file_path change_type tool_used
        symbol_fqn (some "") other =
      record_change w task_id file_path change_type tool_used
        symbol_fqn none other
      ∧ record_change w task_id file_path change_type tool_used
          symbol_fqn other (some "") =
        record_change w task_id file_path change_type tool_used
          symbol_fqn other none := by
  have h : contentHash (some "") = contentHash none := by decide
  constructor <;> · unfold record_change; rw [h]

/-- C10: `record_change` never validates `change_type` (nor `tool_used`)
against the documented enumeration `{modify, create, delete, rename}`: for
every string, the call against a resolved, failure-free relational store
proceeds, returns an identifier, and the appended row carries the given
`change_type` and `tool_used` verbatim. -/
theorem record_change_no_change_type_validation (w : World) (p : Path)
    (h1 : find_lineage_db w.fs w.cwd = some p)
    (h2 : pathEndsWithDb p = true)
    (h3 : w.err.failOpen = false)
    (h4 : w.err.failInsert = false)
    (h5 : w.err.failCommit = false)
    (task_id file_path change_type tool_used : String)
    (symbol_fqn old_content new_content : Option String) :
    ((record_change w task_id file_path change_type tool_used
          symbol_fqn old_content new_content).1).isSome = true
      ∧ ((record_change w task_id file_path change_type tool_used
          symbol_fqn old_content new_content).2 p).code_changes.length =
          (w.dbs p).code_changes.length + 1
      ∧ (((record_change w task_id file_path change_type tool_used
          symbol_fqn old_content new_content).2 p).code_changes.getLast?).map
            Row.change_type = some change_type
      ∧ (((record_change w task_id file_path change_type tool_used
          symbol_fqn old_content new_content).2 p).code_changes.getLast?).map
            Row.tool_used = some tool_used := by
  obtain ⟨htab, hid, -⟩ :=
    record_change_success w p h1 h2 h3 h4 h5
      task_id file_path change_type tool_used symbol_fqn old_content new_content
  refine ⟨by rw [hid]; rfl, by rw [htab]; simp, ?_, ?_⟩ <;>
    rw [htab] <;> simp

/-- A relational-store world for the C10 witness. -/
def wC10 : World :=
  { fs := ⟨[(["w10", ".spectrena", "lineage.db"], EntryKind.file)]⟩
    cwd := ["w10"]
    dbs := fun _ => { phase_state := [], tasks := [], plans := [], code_changes := [] }
    err := { failQuery := false, failOpen := false, failInsert := false, failCommit := false }
    now := "2026-01-01T00:00:00+00:00" }

/-- Witness for C10: a `change_type` far outside the enumeration is
inserted verbatim and the call still returns an identifier. -/
theorem record_change_no_change_type_validation_witness :
    ((record_change wC10 "T-4" "d.py" "definitely-not-a-change-type" "no-such-tool"
          none none none).1).isSome = true
      ∧ ((record_change wC10 "T-4" "d.py" "definitely-not-a-change-type" "no-such-tool"
          none none none).2 ["w10", ".spectrena", "lineage.db"]).code_changes.length =
          (wC10.dbs ["w10", ".spectrena", "lineage.db"]).code_changes.length + 1
      ∧ (((record_change wC10 "T-4" "d.py" "definitely-not-a-change-type" "no-such-tool"
          none none none).2 ["w10", ".spectrena", "lineage.db"]).code_changes.getLast?).map
            Row.change_type = some "definitely-not-a-change-type"
      ∧ (((record_change wC10 "T-4" "d.py" "definitely-not-a-change-type" "no-such-tool"
          none none none).2 ["w10", ".spectrena", "lineage.db"]).code_changes.getLast?).map
            Row.tool_used = some "no-such-tool" :=
  record_change_no_change_type_validation wC10 ["w10", ".spectrena", "lineage.db"]
    (by decide) (by decide) rfl rfl rfl
    "T-4" "d.py" "definitely-not-a-change-type" "no-such-tool" none none none

/-! ### Claims about `get_active_task` and the hash transform -/

theorem activeTaskQuery_isSome_iff (db : Db) :
    (activeTaskQuery db).isSome = true ↔
      ∃ ps ∈ db.phase_state, ps.id = 1 ∧ ps.current_task_id.isSome = true := by
  unfold activeTaskQuery
  cases hf : db.phase_state.find? (fun ps => ps.id = 1 && ps.current_task_id.isSome) with
  | none =>
    have hall := List.find?_eq_none.mp hf
    rw [Option.none_bind']
    simp only [Option.isSome_none, Bool.false_eq_true, false_iff]
    rintro ⟨ps, hmem, hid, hct⟩
    exact absurd (by simp [hid, hct]) (hall ps hmem)
  | some ps =>
    have hpred := List.find?_some hf
    have hmem := List.mem_of_find?_eq_some hf
    simp only [Bool.and_eq_true, decide_eq_true_eq] at hpred
    obtain ⟨hid, hsome⟩ := hpred
    rw [Option.some_bind']
    cases hct : ps.current_task_id with
    | none => rw [hct] at hsome; simp at hsome
    | some tid =>
      rw [Option.map_some']
      simp only [Option.isSome_some, true_iff]
      exact ⟨ps, hmem, hid, hsome⟩

theorem activeTaskQuery_eq_some (db : Db) (r : ActiveTask)
    (h : activeTaskQuery db = some r) :
    (∃ ps ∈ db.phase_state, ps.id = 1 ∧ ps.current_task_id = some r.current_task_id)
      ∧ r.title = (db.tasks.find? (fun t => t.task_id = r.current_task_id)).bind Task.title
      ∧ r.plan_id = (db.tasks.find? (fun t => t.task_id = r.current_task_id)).bind Task.plan_id
      ∧ r.spec_id = (((db.tasks.find? (fun t => t.task_id = r.current_task_id)).bind
            Task.plan_id).bind
          (fun pid => db.plans.find? (fun pl => pl.plan_id = pid))).bind Plan.spec_id := by
  unfold activeTaskQuery at h
  cases hf : db.phase_state.find? (fun ps => ps.id = 1 && ps.current_task_id.isSome) with
  | none =>
    rw [hf, Option.none_bind'] at h
    exact absurd h (by simp)
  | some ps =>
    rw [hf, Option.some_bind'] at h
    have hpred := List.find?_some hf
    have hmem := List.mem_of_find?_eq_some hf
    simp only [Bool.and_eq_true, decide_eq_true_eq] at hpred
    obtain ⟨hid, -⟩ := hpred
    obtain ⟨tid, hct, hr⟩ := Option.map_eq_some'.mp h
    subst hr
    exact ⟨⟨ps, hmem, hid, hct⟩, rfl, rfl, rfl⟩

/-- C3: `get_active_task` returns `None` when no store is resolved; and
against a resolved, failure-free relational store it returns a record
exactly when some `phase_state` row has `id = 1` and a non-null
`current_task_id`, the returned record carrying that pointer together with
the `title`, `plan_id` and `spec_id` obtained by left-joining `tasks` on
the pointer and `plans` on the task's `plan_id` (each `None` when the join
finds no row). -/
theorem get_active_task_spec (w : World) :
    (find_lineage_db w.fs w.cwd = none → get_active_task w = none)
      ∧ (∀ p, find_lineage_db w.fs w.cwd = some p → pathEndsWithDb p = true →
          w.err.failQuery = false →
          (((get_active_task w).isSome = true ↔
              ∃ ps ∈ (w.dbs p).phase_state, ps.id = 1 ∧ ps.current_task_id.isSome = true)
            ∧ ∀ r, get_active_task w = some r →
                ((∃ ps ∈ (w.dbs p).phase_state,
                    ps.id = 1 ∧ ps.current_task_id = some r.current_task_id)
                  ∧ r.title = ((w.dbs p).tasks.find?
                      (fun t => t.task_id = r.current_task_id)).bind Task.title
                  ∧ r.plan_id = ((w.dbs p).tasks.find?
                      (fun t => t.task_id = r.current_task_id)).bind Task.plan_id
                  ∧ r.spec_id = ((((w.dbs p).tasks.find?
                      (fun t => t.task_id = r.current_task_id)).bind Task.plan_id).bind
                      (fun pid => (w.dbs p).plans.find?
                        (fun pl => pl.plan_id = pid))).bind Plan.spec_id))) := by
  constructor
  · intro h
    simp [get_active_task, h]
  · intro p h1 h2 h3
    have hred : get_active_task w = activeTaskQuery (w.dbs p) := by
      simp [get_active_task, h1, h2, h3]
    rw [hred]
    exact ⟨activeTaskQuery_isSome_iff (w.dbs p),
      fun r hr => activeTaskQuery_eq_some (w.dbs p) r hr⟩

/-- A world with a relational store at `w3/.spectrena/lineage.db` whose
`phase_state` singleton points at task `T1` of plan `P1` of spec `S1`. -/
def wC3 : World :=
  { fs := ⟨[(["w3", ".spectrena", "lineage.db"], EntryKind.file)]⟩
    cwd := ["w3"]
    dbs := fun _ =>
      { phase_state := [{ id := 1, current_task_id := some "T1" }]
        tasks := [{ task_id := "T1", title := some "Implement login", plan_id := some "P1" }]
        plans := [{ plan_id := "P1", spec_id := some "S1" }]
        code_changes := [] }
    err := { failQuery := false, failOpen := false, failInsert := false, failCommit := false }
    now := "2026-01-01T00:00:00+00:00" }

/-- Witness for C3: the populated store yields an active task whose row
comes from the `id = 1` phase-state pointer. -/
theorem get_active_task_spec_witness :
    (get_active_task wC3).isSome = true
      ∧ (∃ ps ∈ (wC3.dbs ["w3", ".spectrena", "lineage.db"]).phase_state,
          ps.id = 1 ∧ ps.current_task_id = some "T1") := by
  have h := (get_active_task_spec wC3).2 ["w3", ".spectrena", "lineage.db"]
    (by decide) (by decide) rfl
  refine ⟨h.1.mpr ⟨⟨1, some "T1"⟩, by decide, rfl, rfl⟩, ?_⟩
  exact (h.2 ⟨"T1", some "Implement login", some "P1", some "S1"⟩ (by decide)).1

/-- A world with an empty relational store at `w4/.spectrena/lineage.db`. -/
def wC4 : World :=
  { fs := ⟨[(["w4", ".spectrena", "lineage.db"], EntryKind.file)]⟩
    cwd := ["w4"]
    dbs := fun _ => { phase_state := [], tasks := [], plans := [], code_changes := [] }
    err := { failQuery := false, failOpen := false, failInsert := false, failCommit := false }
    now := "2026-01-01T00:00:00+00:00" }

/-- C4 counterexample: `old_content = ""` is a present string, so the claim
demands the stored hash `e3b0c44298fc1c14` (the 16-hex prefix of
SHA-256 of the empty byte string) — but the recorded row stores an absent
hash: Python truthiness sends the empty string to the `else None` branch. -/
theorem record_change_hash_claim_false :
    ((record_change wC4 "T-5" "e.py" "modify" "tool" none (some "") (some "x")).2
          ["w4", ".spectrena", "lineage.db"]).code_changes.map Row.old_content_hash = [none]
      ∧ (sha256Hex "").take 16 = "e3b0c44298fc1c14"
      ∧ (none : Option String) ≠ some ((sha256Hex "").take 16) := by
  decide

/-- C4 (amended): the stored hash of an absent content is absent and that
of a present NON-EMPTY string is the first 16 hex characters of its
SHA-256 hex digest (the empty string is treated like an absent content);
the recorded row's hash columns carry exactly this transform of the call's
contents, and the digest of `"hello"` matches the standard SHA-256
reference value. Determinism is immediate: `contentHash` and `sha256Hex`
are functions of the content alone. -/
theorem record_change_hash_correct (w : World) (p : Path)
    (h1 : find_lineage_db w.fs w.cwd = some p)
    (h2 : pathEndsWithDb p = true)
    (h3 : w.err.failOpen = false)
    (h4 : w.err.failInsert = false)
    (h5 : w.err.failCommit = false)
    (task_id file_path change_type tool_used : String)
    (symbol_fqn old_content new_content : Option String) :
    (∀ s : String, s ≠ "" → contentHash (some s) = some ((sha256Hex s).take 16))
      ∧ contentHash none = none
      ∧ (sha256Hex "hello").take 16 = "2cf24dba5fb0a30e"
      ∧ (((record_change w task_id file_path change_type tool_used
            symbol_fqn old_content new_content).2 p).code_changes.getLast?).map
            Row.old_content_hash = some (contentHash old_content)
      ∧ (((record_change w task_id file_path change_type tool_used
            symbol_fqn old_content new_content).2 p).code_changes.getLast?).map
            Row.new_content_hash = some (contentHash new_content) := by
  obtain ⟨htab, -, -⟩ :=
    record_change_success w p h1 h2 h3 h4 h5
      task_id file_path change_type tool_used symbol_fqn old_content new_content
  refine ⟨?_, rfl, by decide, ?_, ?_⟩
  · intro s hs
    simp [contentHash, hs]
  · rw [htab]; simp
  · rw [htab]; simp

/-- Witness for the amended C4 at a concrete call: the digest of "hello"
truncates to the reference prefix and both row hash columns match the
transform. -/
theorem record_change_hash_correct_witness :
    contentHash (some "hello") = some ((sha256Hex "hello").take 16)
      ∧ (((record_change wC4 "T-5" "e.py" "modify" "tool"
            none (some "hello") none).2
          ["w4", ".spectrena", "lineage.db"]).code_changes.getLast?).map
            Row.old_content_hash = some (contentHash (some "hello")) := by
  have h := record_change_hash_correct wC4 ["w4", ".spectrena", "lineage.db"]
    (by decide) (by decide) rfl rfl rfl
    "T-5" "e.py" "modify" "tool" none (some "hello") none
  exact ⟨h.1 "hello" (by decide), h.2.2.2.1⟩

end Lineage
